import Mathlib

/-!
Shallow embedding of the UpChunk chunked-upload engine
(`src/example/script.js`, `class UpChunk`).

Numbers are modelled exactly (`ℕ`/`ℤ`/`ℚ`), blobs by their byte lists
(for the append-only source) or by their sizes (inside the engine, which
only ever reads `this.blob.size` and slices by index).  The engine's
asynchronous control flow is modelled as a deterministic step function on
an explicit state, driven by externally chosen actions: producer calls
(`addChunk`, `finish`, `pause`, `resume`), timer firings (the 1-second
`getChunk` poll, the scheduled retry), the settling of the single
outstanding transport request, and the browser online/offline signals.
At most one send loop is modelled (the spec's at-most-one-in-flight
contract); event payload message strings are not modelled, only the
numeric payload fields.
-/

namespace UpChunk

/-- Constant `MIN_CHUNK_SIZE = 256 * 1024` (script.js line 151). -/
def MIN_CHUNK_SIZE : ℕ := 256 * 1024

/-- Constant `SUCCESSFUL_CHUNK_UPLOAD_CODES` (script.js line 130). -/
def SUCCESSFUL_CHUNK_UPLOAD_CODES : List ℕ := [200, 201, 202, 204, 308]

/-- Constant `TEMPORARY_ERROR_CODES` (script.js line 131). -/
def TEMPORARY_ERROR_CODES : List ℕ := [408, 502, 503, 504]

/-- JavaScript `Math.round` on a non-negative exact number: round half up,
`Math.round(x) = floor(x + 1/2)`. -/
def jsRound (q : ℚ) : ℤ := ⌊q + 1/2⌋

/-- The progress percentage the code computes in the success branch of
`sendChunks` (script.js line 423):
`Math.round(this.lastIndex / this.blob.size) * 100`. -/
def percentProgressCode (lastIndex blobSize : ℕ) : ℚ :=
  (jsRound ((lastIndex : ℚ) / (blobSize : ℚ)) : ℚ) * 100

/-- The progress percentage the spec prescribes:
`round(cursor / totalKnownSize * 100)` (multiply before rounding). -/
def percentProgressSpec (lastIndex blobSize : ℕ) : ℤ :=
  jsRound ((lastIndex : ℚ) / (blobSize : ℚ) * 100)

/-- A selected chunk: byte range `[start, start + size)` of the blob. -/
structure Chunk where
  start : ℕ
  size : ℕ
deriving DecidableEq, Repr

/-- The `Content-Range` header value `bytes {start}-{stop}/{total}`
built by `sendChunk` (script.js lines 356-362); `total = none` renders as
the literal `*`. -/
structure CRange where
  start : ℤ
  stop : ℤ
  total : Option ℕ
deriving DecidableEq, Repr

/-- Header construction from `sendChunk` (script.js lines 356-362):
`rangeStart = this.lastIndex`, `rangeEnd = rangeStart + this.chunk.size - 1`,
`fileSize = this.allChunksReceived ? this.blob.size : '*'`. -/
def contentRange (rangeStart chunkSize : ℕ) (allChunksReceived : Bool)
    (blobSize : ℕ) : CRange :=
  { start := (rangeStart : ℤ)
    stop := (rangeStart : ℤ) + (chunkSize : ℤ) - 1
    total := if allChunksReceived then some blobSize else none }

/-- Helper `nearestMultiple` from `getChunk` (script.js line 311):
`MIN_CHUNK_SIZE * Math.floor(size / MIN_CHUNK_SIZE)`. -/
def nearestMultiple (size : ℕ) : ℕ := MIN_CHUNK_SIZE * (size / MIN_CHUNK_SIZE)

/-- One evaluation of `checkAndResolve` inside `getChunk`
(script.js lines 313-328).  `blob = none` models the not-yet-created
`this.blob` (the poll keeps waiting); otherwise `blob = some blobSize`.
`none` means no chunk is selectable yet and the poll re-arms. -/
def getChunk (maxChunkByteSize : ℕ) (blob : Option ℕ) (lastIndex : ℕ)
    (allChunksReceived : Bool) : Option Chunk :=
  match blob with
  | none => none
  | some blobSize =>
    let remainingSize := blobSize - lastIndex
    if allChunksReceived ∧ remainingSize < MIN_CHUNK_SIZE then
      some ⟨lastIndex, remainingSize⟩
    else if MIN_CHUNK_SIZE ≤ remainingSize then
      some ⟨lastIndex,
        if maxChunkByteSize ≤ remainingSize then maxChunkByteSize
        else nearestMultiple remainingSize⟩
    else none

/-- Where the single send loop currently stands.  `idle`: no loop activity
is pending (the loop returned at the gate, ended after `success`/`error`
dispatch, or has not been re-entered).  `selecting`: a `sendChunks` call
passed the gate and `getChunk` is polling.  `inFlight`: `sendChunk` issued
the PUT and its settlement is awaited.  `retryScheduled`: `manageRetries`
armed the `setTimeout(() => this.sendChunks(), ...)` timer. -/
inductive Phase where
  | idle
  | selecting
  | inFlight
  | retryScheduled
deriving DecidableEq, Repr

/-- Dispatched events with their numeric payload fields
(message strings are not modelled). -/
inductive Ev where
  | attempt (chunkNumber : ℕ) (chunkSize : ℚ)
  | attemptFailure (chunkNumber : ℕ) (attemptsLeft : ℕ)
  | error (chunkNumber : ℕ) (attempts : ℕ)
  | progress (percent : ℚ)
  | success
  | offline
  | online
deriving DecidableEq

/-- Immutable configuration fixed by the constructor:
`maxChunkByteSize = maxChunkSize * 1024` and `attempts`
(script.js lines 177-182). -/
structure Config where
  maxChunkByteSize : ℕ
  attempts : ℕ
deriving DecidableEq, Repr

/-- The mutable fields of an `UpChunk` instance.  The engine reads the
blob only through `this.blob.size` and index-based `slice`, so `blob` is
modelled by its size; `none` is the not-yet-assigned `this.blob`.
`events` is the log of dispatches, `requests` the log of issued PUT
requests (chunk range and `Content-Range` header). -/
structure UpState where
  blob : Option ℕ
  allChunksReceived : Bool
  lastIndex : ℕ
  chunkCount : ℕ
  attemptCount : ℕ
  paused : Bool
  offlineF : Bool
  chunk : Option Chunk
  phase : Phase
  events : List Ev
  requests : List (Chunk × CRange)
deriving DecidableEq

/-- Size of `this.blob` (0 before assignment; the code only reads
`this.blob.size` on paths where the blob exists). -/
def blobSize (s : UpState) : ℕ := s.blob.getD 0

/-- Body of `sendChunk` (script.js lines 355-376): dispatch `attempt`
with `chunkNumber = this.chunkCount` and
`chunkSize = this.chunk.size / 1024`, then issue the PUT carrying the
`Content-Range` header. -/
def sendChunk (s : UpState) (c : Chunk) : UpState :=
  { s with
    events := s.events ++ [Ev.attempt s.chunkCount ((c.size : ℚ) / 1024)]
    requests := s.requests ++
      [(c, contentRange c.start c.size s.allChunksReceived (blobSize s))] }

/-- Firing of one `getChunk` poll while the loop is selecting: if a chunk
is now selectable it is stored in `this.chunk` and `sendChunk` runs
(the `.then(() => this.sendChunk())` step of `sendChunks`,
script.js lines 411-412); otherwise the poll re-arms and nothing changes.
Note that the `paused`/`offline` gate is NOT re-checked here: it is only
checked at `sendChunks` entry (script.js line 407). -/
def pollFire (cfg : Config) (s : UpState) : UpState :=
  if s.phase = Phase.selecting then
    match getChunk cfg.maxChunkByteSize s.blob s.lastIndex s.allChunksReceived with
    | some c => sendChunk { s with chunk := some c, phase := Phase.inFlight } c
    | none => s
  else s

/-- Function `manageRetries` (script.js lines 381-400): below the budget, increment
`attemptCount`, schedule a `sendChunks` re-entry and dispatch
`attemptFailure` with `attemptsLeft = this.attempts - this.attemptCount`;
otherwise dispatch `error` and stop. -/
def manageRetries (cfg : Config) (s : UpState) : UpState :=
  if s.attemptCount < cfg.attempts then
    { s with
      attemptCount := s.attemptCount + 1
      phase := Phase.retryScheduled
      events := s.events ++
        [Ev.attemptFailure s.chunkCount (cfg.attempts - (s.attemptCount + 1))] }
  else
    { s with
      phase := Phase.idle
      events := s.events ++ [Ev.error s.chunkCount s.attemptCount] }

/-- Result of the transport call: a response with a status code, or a
network-level failure (the promise rejection handled by `.catch`). -/
inductive XhrResult where
  | resp (statusCode : ℕ)
  | netError
deriving DecidableEq, Repr

/-- Settlement of the outstanding request: the response handler of
`sendChunks` (script.js lines 413-450).  On a success code: advance
`chunkCount`/`lastIndex`, dispatch `success` or re-enter the loop
(gate-checked), then dispatch `progress` with
`Math.round(lastIndex / blob.size) * 100` — note there is NO
`paused`/`offline` check and NO `attemptCount` reset on this path.
On a temporary code or a network error: if paused or offline, return
silently; else `manageRetries`.  On any other code: if paused or offline,
return silently; else dispatch `error` and stop. -/
def respond (cfg : Config) (r : XhrResult) (s : UpState) : UpState :=
  if s.phase = Phase.inFlight then
    match r with
    | XhrResult.resp code =>
      if code ∈ SUCCESSFUL_CHUNK_UPLOAD_CODES then
        let csize := (s.chunk.map Chunk.size).getD 0
        let s1 := { s with
          chunkCount := s.chunkCount + 1
          lastIndex := s.lastIndex + csize }
        let s2 :=
          if s1.allChunksReceived ∧ blobSize s1 ≤ s1.lastIndex then
            { s1 with phase := Phase.idle, events := s1.events ++ [Ev.success] }
          else if s1.paused ∨ s1.offlineF then { s1 with phase := Phase.idle }
          else { s1 with phase := Phase.selecting }
        { s2 with events := s2.events ++
            [Ev.progress (percentProgressCode s2.lastIndex (blobSize s2))] }
      else if code ∈ TEMPORARY_ERROR_CODES then
        if s.paused ∨ s.offlineF then { s with phase := Phase.idle }
        else manageRetries cfg s
      else
        if s.paused ∨ s.offlineF then { s with phase := Phase.idle }
        else { s with
          phase := Phase.idle
          events := s.events ++ [Ev.error s.chunkCount s.attemptCount] }
    | XhrResult.netError =>
      if s.paused ∨ s.offlineF then { s with phase := Phase.idle }
      else manageRetries cfg s
  else s

/-- Firing of the retry timer armed by `manageRetries`: a fresh
`sendChunks()` call, which first checks the gate (script.js line 407). -/
def retryFire (s : UpState) : UpState :=
  if s.phase = Phase.retryScheduled then
    if s.paused ∨ s.offlineF then { s with phase := Phase.idle }
    else { s with phase := Phase.selecting }
  else s

/-- Method `resume` (script.js lines 235-241): if paused, clear the flag and call
`sendChunks()` (gate-checked entry; modelled only from `idle`, keeping the
at-most-one-loop abstraction). -/
def resume (s : UpState) : UpState :=
  if s.paused then
    let s1 := { s with paused := false }
    if s1.phase = Phase.idle ∧ s1.offlineF = false then
      { s1 with phase := Phase.selecting }
    else s1
  else s

/-- The `window` offline listener (script.js lines 205-208): set the flag
and dispatch `offline`. -/
def goOffline (s : UpState) : UpState :=
  { s with offlineF := true, events := s.events ++ [Ev.offline] }

/-- The `window` online listener (script.js lines 195-203): if the flag
was set, clear it, dispatch `online` and call `sendChunks()`
(gate-checked entry, modelled only from `idle`). -/
def goOnline (s : UpState) : UpState :=
  if s.offlineF then
    let s1 := { s with offlineF := false, events := s.events ++ [Ev.online] }
    if s1.phase = Phase.idle ∧ s1.paused = false then
      { s1 with phase := Phase.selecting }
    else s1
  else s

/-- Externally chosen happenings that drive the engine. -/
inductive Action where
  | poll
  | respond (r : XhrResult)
  | retryFire
  | pauseA
  | resumeA
  | addChunk (len : ℕ)
  | finishA
  | goOffline
  | goOnline
deriving DecidableEq

/-- One step of the machine.  `addChunk` (script.js lines 212-218)
concatenates the new data, growing the blob size; `finish`
(lines 220-222) sets `allChunksReceived`; `pause` (lines 231-233) sets
the flag. -/
def step (cfg : Config) (s : UpState) (a : Action) : UpState :=
  match a with
  | Action.poll => pollFire cfg s
  | Action.respond r => respond cfg r s
  | Action.retryFire => retryFire s
  | Action.pauseA => { s with paused := true }
  | Action.resumeA => resume s
  | Action.addChunk len => { s with blob := some (s.blob.getD 0 + len) }
  | Action.finishA => { s with allChunksReceived := true }
  | Action.goOffline => goOffline s
  | Action.goOnline => goOnline s

/-- Run a sequence of actions. -/
def run (cfg : Config) (s : UpState) (acts : List Action) : UpState :=
  acts.foldl (step cfg) s

/-- The state right after construction (script.js lines 174-190): all
counters 0, gates clear, no blob yet; `getEndpoint().then(() =>
this.sendChunks())` has entered the loop (gates are initially false), so
the machine starts in `selecting`. -/
def init : UpState :=
  { blob := none
    allChunksReceived := false
    lastIndex := 0
    chunkCount := 0
    attemptCount := 0
    paused := false
    offlineF := false
    chunk := none
    phase := Phase.selecting
    events := []
    requests := [] }

/-- The byte-level view of the append-only source, for properties about
the stored bytes themselves (the engine above only observes sizes).
`blob` is the byte list of `this.blob` (`none` before first assignment),
`allChunksReceived` the completion flag. -/
structure SourceState where
  blob : Option (List ℕ)
  allChunksReceived : Bool
deriving DecidableEq

/-- Method `addChunk` at the byte level (script.js lines 212-218):
`new Blob([this.blob, chunk])` concatenates, `new Blob([chunk])` starts
the blob.  There is no check of the completion flag and no failure path. -/
def srcAddChunk (s : SourceState) (data : List ℕ) : SourceState :=
  { s with blob := some (s.blob.getD [] ++ data) }

/-- Method `finish` at the byte level (script.js lines 220-222). -/
def srcFinish (s : SourceState) : SourceState :=
  { s with allChunksReceived := true }

/-- Concrete state for the C3 witness: 300 KiB of data, the request for
`[0, 262144)` in flight at cursor 0. -/
def stC3 : UpState :=
  { init with
    blob := some 307200
    chunk := some (Chunk.mk 0 262144)
    phase := Phase.inFlight }

/-- Concrete state for the C5 witness: 600 KiB source, completion already
signaled, loop selecting at cursor 0. -/
def stC5 : UpState :=
  { init with
    blob := some 614400
    allChunksReceived := true }

/-- Concrete state for the C7 witness: request for `[0, 262144)` of a
512 KiB source in flight, pause already in effect. -/
def stC7 : UpState :=
  { init with
    blob := some 524288
    chunk := some (Chunk.mk 0 262144)
    phase := Phase.inFlight
    paused := true }

/-- Concrete state for the C8 witness: loop halted at the gate, paused. -/
def stC8 : UpState :=
  { init with
    phase := Phase.idle
    paused := true }

/-- Concrete state for the C9 witness: 256 KiB source fully uploaded and
complete, loop selecting at cursor 262144 (remaining 0). -/
def stC9 : UpState :=
  { init with
    blob := some 262144
    allChunksReceived := true
    lastIndex := 262144 }

/-- Concrete state for the C10 witness: completed 90000-byte source,
loop selecting its final (fractional-kilobyte) chunk. -/
def stC10 : UpState :=
  { init with
    blob := some 90000
    allChunksReceived := true }

/-! ## Helper lemmas -/

/-- Every chunk `getChunk` selects starts at the current cursor
(`this.lastIndex`), whatever the source state. -/
theorem getChunk_start (m : ℕ) (blob : Option ℕ) (li : ℕ) (acr : Bool)
    (c : Chunk) (h : getChunk m blob li acr = some c) : c.start = li := by
  match blob with
  | none => simp [getChunk] at h
  | some b =>
    simp only [getChunk] at h
    split at h
    · injection h with h'
      subst h'
      rfl
    · split at h
      · injection h with h'
        subst h'
        rfl
      · cases h

/-- Folding byte-level appends over a blob that already exists
concatenates all the data in order; the completion flag is untouched. -/
theorem srcAddChunk_foldl (l : List ℕ) (f : Bool) (datas : List (List ℕ)) :
    (datas.foldl srcAddChunk ⟨some l, f⟩).blob = some (l ++ datas.flatten) ∧
    (datas.foldl srcAddChunk ⟨some l, f⟩).allChunksReceived = f := by
  induction datas generalizing l with
  | nil => simp
  | cons d rest ih =>
    have h1 : srcAddChunk ⟨some l, f⟩ d = ⟨some (l ++ d), f⟩ := by
      simp [srcAddChunk]
    simp only [List.foldl_cons, h1, List.flatten]
    rcases ih (l ++ d) with ⟨hb, hf⟩
    exact ⟨by rw [hb]; simp, hf⟩

/-! ## Claims -/

/-- Claim C1: the claim states that the progress percentage emitted after
a successful chunk is `round(cursor / totalKnownSize * 100)` (multiply
before rounding), yielding intermediate values.  The success branch of
`sendChunks` (script.js line 423) instead computes
`Math.round(this.lastIndex / this.blob.size) * 100`, rounding the ratio
first: with the cursor at 262144 of 1048576 bytes (one quarter uploaded)
it emits 0, where the claimed formula gives 25; the code's value can only
ever be 0 or 100. -/
theorem c1_progress_rounds_before_multiplying :
    percentProgressCode 262144 1048576 = 0 ∧
    percentProgressSpec 262144 1048576 = 25 ∧
    percentProgressCode 262144 1048576 ≠
      ((percentProgressSpec 262144 1048576 : ℤ) : ℚ) := by
  refine ⟨?_, ?_, ?_⟩ <;>
    norm_num [percentProgressCode, percentProgressSpec, jsRound]

/-- Claim C4: every chunk selected while the source is incomplete has a
size that is a positive multiple of 256 KiB, never exceeds the configured
maximum byte size, and — when the remaining bytes are below the maximum —
equals the remaining count rounded down to a multiple of 256 KiB.
Hypotheses mirror `validateOptions` (script.js lines 267-276):
`maxChunkSize` positive and a multiple of 256, converted to bytes by
`* 1024` (line 182). -/
theorem c4_chunk_size_granularity (maxChunkSize blobSz lastIndex : ℕ)
    (c : Chunk) (hpos : 0 < maxChunkSize) (hmul : maxChunkSize % 256 = 0)
    (hsel : getChunk (maxChunkSize * 1024) (some blobSz) lastIndex false =
      some c) :
    0 < c.size ∧ c.size % MIN_CHUNK_SIZE = 0 ∧
    c.size ≤ maxChunkSize * 1024 ∧
    (blobSz - lastIndex < maxChunkSize * 1024 →
      c.size = MIN_CHUNK_SIZE * ((blobSz - lastIndex) / MIN_CHUNK_SIZE)) := by
  by_cases h1 : MIN_CHUNK_SIZE ≤ blobSz - lastIndex
  · by_cases h2 : maxChunkSize * 1024 ≤ blobSz - lastIndex
    · have hc : some (Chunk.mk lastIndex (maxChunkSize * 1024)) = some c := by
        simpa [getChunk, h1, h2] using hsel
      injection hc with hc'
      subst hc'
      obtain ⟨k, hk⟩ := Nat.dvd_of_mod_eq_zero hmul
      refine ⟨by positivity, ?_, le_refl _, by omega⟩
      have : maxChunkSize * 1024 = MIN_CHUNK_SIZE * k := by
        simp only [MIN_CHUNK_SIZE]; omega
      simp [this, Nat.mul_mod_right]
    · have hc : some (Chunk.mk lastIndex
          (nearestMultiple (blobSz - lastIndex))) = some c := by
        simpa [getChunk, h1, h2] using hsel
      injection hc with hc'
      subst hc'
      have hminpos : 0 < MIN_CHUNK_SIZE := by norm_num [MIN_CHUNK_SIZE]
      refine ⟨?_, ?_, ?_, fun _ => rfl⟩
      · exact Nat.mul_pos hminpos (Nat.div_pos h1 hminpos)
      · exact Nat.mul_mod_right _ _
      · calc MIN_CHUNK_SIZE * ((blobSz - lastIndex) / MIN_CHUNK_SIZE)
            ≤ blobSz - lastIndex := Nat.mul_div_le _ _
          _ ≤ maxChunkSize * 1024 := le_of_not_le h2
  · simp [getChunk, h1] at hsel

/-- Witness for C4: 600 KiB remaining at cursor 0, `maxChunkSize = 1024`
(1 MiB in bytes): the selected chunk has size 524288 = 2 · 256 KiB. -/
theorem c4_witness :
    0 < (524288 : ℕ) ∧ (524288 : ℕ) % MIN_CHUNK_SIZE = 0 ∧
    (524288 : ℕ) ≤ 1024 * 1024 ∧
    (614400 - 0 < 1024 * 1024 →
      (524288 : ℕ) = MIN_CHUNK_SIZE * ((614400 - 0) / MIN_CHUNK_SIZE)) :=
  c4_chunk_size_granularity 1024 614400 0 ⟨0, 524288⟩ (by decide) (by decide)
    (by decide)

/-- Claim C2: the claim states that `attemptCount` resets to 0 whenever a
chunk succeeds and the cursor advances, so every chunk gets the full
retry budget.  The success branch of `sendChunks` (script.js
lines 414-425) never resets `attemptCount`: after chunk 0 of a 512 KiB
source fails transiently three times and then succeeds (cursor advanced
to 262144, chunk index 1), `attemptCount` is still 3, so the next chunk
inherits a reduced budget. -/
theorem c2_attemptCount_not_reset_on_success :
    (run ⟨262144, 5⟩ init [.addChunk 524288, .poll, .respond (.resp 503),
      .retryFire, .poll, .respond (.resp 503), .retryFire, .poll,
      .respond (.resp 503), .retryFire, .poll,
      .respond (.resp 200)]).attemptCount = 3 ∧
    (run ⟨262144, 5⟩ init [.addChunk 524288, .poll, .respond (.resp 503),
      .retryFire, .poll, .respond (.resp 503), .retryFire, .poll,
      .respond (.resp 503), .retryFire, .poll,
      .respond (.resp 200)]).lastIndex = 262144 ∧
    (run ⟨262144, 5⟩ init [.addChunk 524288, .poll, .respond (.resp 503),
      .retryFire, .poll, .respond (.resp 503), .retryFire, .poll,
      .respond (.resp 503), .retryFire, .poll,
      .respond (.resp 200)]).chunkCount = 1 ∧ (3 : ℕ) ≠ 0 := by
  decide

/-- Counterexample to claim C3: a 300 KiB incomplete source yields a first
request for `[0, 262144)`; after a 503 the source grows to 600 KiB, and
the retry — which re-runs `getChunk` on the current state — requests
`[0, 524288)`, not the failed attempt's range. -/
theorem c3_counterexample :
    (run ⟨1048576, 5⟩ init [.addChunk 307200, .poll]).requests =
      [(⟨0, 262144⟩, ⟨0, 262143, none⟩)] ∧
    (run ⟨1048576, 5⟩ init [.addChunk 307200, .poll, .respond (.resp 503),
        .addChunk 307200, .retryFire, .poll]).requests =
      [(⟨0, 262144⟩, ⟨0, 262143, none⟩),
       (⟨0, 524288⟩, ⟨0, 524287, none⟩)] ∧
    (524288 : ℕ) ≠ 262144 := by
  decide

/-- Claim C3 as amended: a transient failure below the retry budget leaves
the cursor unchanged and schedules a re-entry, so the retried request
starts at the same byte offset as the failed attempt; but the chunk is
re-selected from the source state at retry time, so its size — and hence
the covered range — is whatever `getChunk` yields then, for any source
size and completion flag. -/
theorem c3_retry_same_start_reselected_size (cfg : Config) (s : UpState)
    (code : ℕ) (hphase : s.phase = Phase.inFlight)
    (hp : s.paused = false) (ho : s.offlineF = false)
    (htrans : code ∈ TEMPORARY_ERROR_CODES)
    (hbudget : s.attemptCount < cfg.attempts) :
    (respond cfg (XhrResult.resp code) s).lastIndex = s.lastIndex ∧
    (respond cfg (XhrResult.resp code) s).phase = Phase.retryScheduled ∧
    ∀ (b : Option ℕ) (acr : Bool) (c : Chunk),
      getChunk cfg.maxChunkByteSize b s.lastIndex acr = some c →
      c.start = s.lastIndex := by
  have hns : code ∉ SUCCESSFUL_CHUNK_UPLOAD_CODES := by
    simp only [TEMPORARY_ERROR_CODES, List.mem_cons, List.not_mem_nil,
      or_false] at htrans
    rcases htrans with rfl | rfl | rfl | rfl <;> decide
  refine ⟨?_, ?_, fun b acr c hc => getChunk_start _ b _ acr c hc⟩ <;>
    simp [respond, hphase, hns, htrans, hp, ho, manageRetries, hbudget]

/-- Witness for the amended C3: a concrete in-flight state at cursor 0
with a 503 response; the cursor is unchanged, a retry is scheduled, and
any later selection at that cursor starts at 0. -/
theorem c3_witness :
    (respond ⟨1048576, 5⟩ (XhrResult.resp 503) stC3).lastIndex =
      stC3.lastIndex ∧
    (respond ⟨1048576, 5⟩ (XhrResult.resp 503) stC3).phase =
      Phase.retryScheduled ∧
    ∀ (b : Option ℕ) (acr : Bool) (c : Chunk),
      getChunk 1048576 b stC3.lastIndex acr = some c →
      c.start = stC3.lastIndex :=
  c3_retry_same_start_reselected_size ⟨1048576, 5⟩ stC3 503 rfl rfl rfl
    (by decide) (by decide)

/-- Counterexample to claim C5: with completion already signaled on a
600 KiB source, the very first — clearly non-final — chunk `[0, 262144)`
is sent with `Content-Range` total `614400`, not the literal `*` the
claim requires for non-final chunks after completion. -/
theorem c5_counterexample :
    (run ⟨262144, 5⟩ init [.addChunk 614400, .finishA, .poll]).requests =
      [(⟨0, 262144⟩, ⟨0, 262143, some 614400⟩)] ∧
    0 + (262144 : ℕ) < 614400 := by
  decide

/-- Claim C5 as amended: the `total` part of `Content-Range` is the
literal source size whenever `allChunksReceived` is set — for final and
non-final chunks alike — and the literal `*` exactly while the source is
incomplete. -/
theorem c5_total_iff_complete (cfg : Config) (s : UpState) (c : Chunk)
    (hphase : s.phase = Phase.selecting)
    (hsel : getChunk cfg.maxChunkByteSize s.blob s.lastIndex
      s.allChunksReceived = some c) :
    ∃ r : CRange,
      (pollFire cfg s).requests = s.requests ++ [(c, r)] ∧
      r.start = (c.start : ℤ) ∧
      r.stop = (c.start : ℤ) + (c.size : ℤ) - 1 ∧
      (r.total = some (blobSize s) ↔ s.allChunksReceived = true) ∧
      (r.total = none ↔ s.allChunksReceived = false) := by
  refine ⟨contentRange c.start c.size s.allChunksReceived (blobSize s),
    ?_, rfl, rfl, ?_, ?_⟩
  · simp [pollFire, hphase, hsel, sendChunk, blobSize]
  · cases h : s.allChunksReceived <;> simp [contentRange, h]
  · cases h : s.allChunksReceived <;> simp [contentRange, h]

/-- Witness for the amended C5: the completed 600 KiB source at cursor 0
selects `[0, 262144)` and its header total is the numeric size. -/
theorem c5_witness :
    ∃ r : CRange,
      (pollFire ⟨262144, 5⟩ stC5).requests =
        stC5.requests ++ [(⟨0, 262144⟩, r)] ∧
      r.start = ((0 : ℕ) : ℤ) ∧
      r.stop = ((0 : ℕ) : ℤ) + ((262144 : ℕ) : ℤ) - 1 ∧
      (r.total = some (blobSize stC5) ↔ stC5.allChunksReceived = true) ∧
      (r.total = none ↔ stC5.allChunksReceived = false) :=
  c5_total_iff_complete ⟨262144, 5⟩ stC5 ⟨0, 262144⟩ rfl (by decide)

/-- Counterexample to claim C6: after `finish()` has set the completion
flag, `addChunk` does not fail — it concatenates the new data onto the
stored bytes (script.js lines 212-218 perform no completion check). -/
theorem c6_counterexample :
    (srcFinish ⟨some [1, 2], false⟩).allChunksReceived = true ∧
    (srcAddChunk (srcFinish ⟨some [1, 2], false⟩) [3]).blob =
      some [1, 2, 3] ∧
    (srcAddChunk (srcFinish ⟨some [1, 2], false⟩) [3]).blob ≠
      (srcFinish ⟨some [1, 2], false⟩).blob := by
  decide

/-- Claim C6 as amended: `addChunk` never fails: in every state, with the
completion flag set or not, it concatenates the data at the end of the
stored bytes, preserving order across any sequence of appends, and leaves
the completion flag untouched. -/
theorem c6_append_always_concatenates (s : SourceState) (d : List ℕ)
    (datas : List (List ℕ)) :
    ((d :: datas).foldl srcAddChunk s).blob =
      some (s.blob.getD [] ++ (d :: datas).flatten) ∧
    ((d :: datas).foldl srcAddChunk (srcFinish s)).blob =
      ((d :: datas).foldl srcAddChunk s).blob ∧
    ((d :: datas).foldl srcAddChunk s).allChunksReceived =
      s.allChunksReceived := by
  have h1 : srcAddChunk s d = ⟨some (s.blob.getD [] ++ d),
      s.allChunksReceived⟩ := by
    simp [srcAddChunk]
  have h2 : srcAddChunk (srcFinish s) d =
      ⟨some (s.blob.getD [] ++ d), true⟩ := by
    simp [srcAddChunk, srcFinish]
  rcases srcAddChunk_foldl (s.blob.getD [] ++ d) s.allChunksReceived datas
    with ⟨hb, hf⟩
  rcases srcAddChunk_foldl (s.blob.getD [] ++ d) true datas with ⟨hb', _⟩
  simp only [List.foldl_cons, h1, h2, List.flatten]
  exact ⟨by rw [hb]; simp, by rw [hb, hb'], hf⟩

/-- Counterexample to claim C7: pause takes effect while the request for
`[0, 262144)` of a 512 KiB source is outstanding; when the request then
settles with 200, the success branch (script.js lines 414-425) still
runs — the cursor advances from 0 to 262144 and the chunk index to 1 —
contradicting the claim that success handling is suppressed. -/
theorem c7_counterexample :
    (run ⟨262144, 5⟩ init
      [.addChunk 524288, .poll, .pauseA]).lastIndex = 0 ∧
    (run ⟨262144, 5⟩ init
      [.addChunk 524288, .poll, .pauseA, .respond (.resp 200)]).paused =
      true ∧
    (run ⟨262144, 5⟩ init
      [.addChunk 524288, .poll, .pauseA,
        .respond (.resp 200)]).lastIndex = 262144 ∧
    (run ⟨262144, 5⟩ init
      [.addChunk 524288, .poll, .pauseA,
        .respond (.resp 200)]).chunkCount = 1 := by
  decide

/-- Claim C7 as amended: when paused or offline is set while a request is
outstanding, only FAILURE handling of the settled response is suppressed:
for any non-success result the state is left exactly as it was (no retry
bookkeeping, no attemptFailure/error events), the loop merely going idle.
Success handling, by contrast, still runs (see the C7 counterexample). -/
theorem c7_failure_handling_suppressed (cfg : Config) (s : UpState)
    (r : XhrResult) (hphase : s.phase = Phase.inFlight)
    (hgate : s.paused = true ∨ s.offlineF = true)
    (hfail : ∀ code, r = XhrResult.resp code →
      code ∉ SUCCESSFUL_CHUNK_UPLOAD_CODES) :
    respond cfg r s = { s with phase := Phase.idle } := by
  have hg : (s.paused ∨ s.offlineF) := by
    rcases hgate with h | h <;> simp [h]
  cases r with
  | netError => simp [respond, hphase, hg]
  | resp code =>
    have hns := hfail code rfl
    by_cases ht : code ∈ TEMPORARY_ERROR_CODES <;>
      simp [respond, hphase, hns, ht, hg]

/-- Witness for the amended C7: a paused in-flight state receiving a 503
settles into the identical state with the loop idle. -/
theorem c7_witness :
    respond ⟨262144, 5⟩ (XhrResult.resp 503) stC7 =
      { stC7 with phase := Phase.idle } :=
  c7_failure_handling_suppressed ⟨262144, 5⟩ stC7 (XhrResult.resp 503) rfl
    (Or.inl rfl)
    (by intro code h; injection h with h'; subst h'; decide)

/-- Counterexample to claim C8: the loop entered selection before any
data existed (no request in flight), then `pause()` took effect; when
enough data arrives, the pending `getChunk` poll still resolves and the
chunk is sent — a transport call is issued while `paused` is true,
because the gate is only checked at `sendChunks` entry
(script.js line 407), not after chunk selection. -/
theorem c8_counterexample :
    (run ⟨262144, 5⟩ init [.pauseA]).requests = [] ∧
    (run ⟨262144, 5⟩ init [.pauseA]).phase = Phase.selecting ∧
    (run ⟨262144, 5⟩ init
      [.pauseA, .addChunk 262144, .poll]).paused = true ∧
    (run ⟨262144, 5⟩ init [.pauseA, .addChunk 262144, .poll]).requests =
      [(⟨0, 262144⟩, ⟨0, 262143, none⟩)] := by
  decide

/-- Claim C8 as amended: while `paused` is true AND the loop is halted at
the gate (idle), no action other than `resume()` issues a transport call
or restarts the loop, even as data arrives or completion is signaled;
`resume()` clears the flag and re-enters the loop, so the next selectable
chunk gets sent.  (If pause instead takes effect after the loop already
passed the gate and is polling for data, the selected chunk is still sent
while paused — see the C8 counterexample.) -/
theorem c8_paused_idle_no_requests (cfg : Config) (s : UpState) (a : Action)
    (hphase : s.phase = Phase.idle) (hp : s.paused = true)
    (ha : a ≠ Action.resumeA) :
    (step cfg s a).requests = s.requests ∧
    (step cfg s a).phase = Phase.idle ∧
    (step cfg s Action.resumeA).paused = false ∧
    (s.offlineF = false →
      (step cfg s Action.resumeA).phase = Phase.selecting) := by
  have hres1 : (step cfg s Action.resumeA).paused = false := by
    by_cases ho : s.offlineF <;> simp [step, resume, hp, hphase, ho]
  have hres2 : s.offlineF = false →
      (step cfg s Action.resumeA).phase = Phase.selecting := by
    intro ho
    simp [step, resume, hp, hphase, ho]
  refine ⟨?_, ?_, hres1, hres2⟩ <;>
    cases a <;>
      by_cases ho : s.offlineF <;>
        simp_all [step, pollFire, respond, retryFire, resume, goOffline,
          goOnline, hphase, hp]

/-- Witness for the amended C8: a paused idle engine sees 256 KiB of new
data arrive; no request is issued and the loop stays halted, while a
`resume()` from that state clears the flag and re-enters the loop. -/
theorem c8_witness :
    (step ⟨262144, 5⟩ stC8 (Action.addChunk 262144)).requests =
      stC8.requests ∧
    (step ⟨262144, 5⟩ stC8 (Action.addChunk 262144)).phase = Phase.idle ∧
    (step ⟨262144, 5⟩ stC8 Action.resumeA).paused = false ∧
    (stC8.offlineF = false →
      (step ⟨262144, 5⟩ stC8 Action.resumeA).phase = Phase.selecting) :=
  c8_paused_idle_no_requests ⟨262144, 5⟩ stC8 (Action.addChunk 262144) rfl
    rfl (by decide)

/-- Counterexample to claim C9: a 256 KiB source is fully uploaded, then
`finish()` is signaled; the next `getChunk` poll selects the zero-length
chunk `[262144, 262144)` and the engine sends a zero-length request —
with `Content-Range` end 262143 below its start 262144 — instead of
treating the upload as already done. -/
theorem c9_counterexample :
    (run ⟨262144, 5⟩ init [.addChunk 262144, .poll, .respond (.resp 200),
      .finishA]).allChunksReceived = true ∧
    (run ⟨262144, 5⟩ init [.addChunk 262144, .poll, .respond (.resp 200),
      .finishA]).lastIndex = 262144 ∧
    (run ⟨262144, 5⟩ init [.addChunk 262144, .poll, .respond (.resp 200),
      .finishA]).blob = some 262144 ∧
    (run ⟨262144, 5⟩ init [.addChunk 262144, .poll, .respond (.resp 200),
      .finishA, .poll]).requests =
      [(⟨0, 262144⟩, ⟨0, 262143, none⟩),
       (⟨262144, 0⟩, ⟨262144, 262143, some 262144⟩)] := by
  decide

/-- Claim C9 as amended: when the source is complete and the remaining
byte count at the cursor is exactly 0, the engine does NOT treat the
upload as already done: chunk selection yields the zero-length chunk at
the cursor, a zero-length request is sent (its `Content-Range` end is
start − 1), and `success` is dispatched only once that empty request
settles successfully. -/
theorem c9_zero_length_request_sent (cfg : Config) (s : UpState) (b : ℕ)
    (hphase : s.phase = Phase.selecting) (hblob : s.blob = some b)
    (hacr : s.allChunksReceived = true) (hdone : s.lastIndex = b) :
    (pollFire cfg s).chunk = some ⟨b, 0⟩ ∧
    (pollFire cfg s).requests = s.requests ++
      [(⟨b, 0⟩, ⟨(b : ℤ), (b : ℤ) - 1, some b⟩)] ∧
    Ev.success ∈ (respond cfg (XhrResult.resp 200) (pollFire cfg s)).events := by
  have hsel : getChunk cfg.maxChunkByteSize s.blob s.lastIndex
      s.allChunksReceived = some ⟨b, 0⟩ := by
    simp [getChunk, hblob, hacr, hdone, MIN_CHUNK_SIZE]
  have hpoll : pollFire cfg s =
      sendChunk { s with chunk := some ⟨b, 0⟩, phase := Phase.inFlight }
        ⟨b, 0⟩ := by
    simp [pollFire, hphase, hsel]
  have hcr : contentRange b 0 true b = ⟨(b : ℤ), (b : ℤ) - 1, some b⟩ := by
    simp [contentRange]
  refine ⟨by simp [hpoll, sendChunk], ?_, ?_⟩
  · simp [hpoll, sendChunk, hacr, hblob, blobSize, hcr]
  · rw [hpoll]
    simp [sendChunk, respond, SUCCESSFUL_CHUNK_UPLOAD_CODES, blobSize,
      hblob, hacr, hdone]

/-- Witness for the amended C9: the completed, fully-uploaded 256 KiB
source selects and sends the zero-length chunk at 262144, and `success`
fires only after that request succeeds. -/
theorem c9_witness :
    (pollFire ⟨262144, 5⟩ stC9).chunk = some ⟨262144, 0⟩ ∧
    (pollFire ⟨262144, 5⟩ stC9).requests = stC9.requests ++
      [(⟨262144, 0⟩, ⟨((262144 : ℕ) : ℤ), ((262144 : ℕ) : ℤ) - 1,
        some 262144⟩)] ∧
    Ev.success ∈ (respond ⟨262144, 5⟩ (XhrResult.resp 200)
      (pollFire ⟨262144, 5⟩ stC9)).events :=
  c9_zero_length_request_sent ⟨262144, 5⟩ stC9 262144 rfl rfl rfl rfl

/-- Claim C10: the `attempt` event dispatched by `sendChunk` immediately
before the upload (script.js lines 365-368) carries
`chunkSize = this.chunk.size / 1024` — the byte size divided by 1024, a
possibly fractional kilobyte count, not the raw byte size. -/
theorem c10_attempt_event_in_kilobytes (cfg : Config) (s : UpState)
    (c : Chunk) (hphase : s.phase = Phase.selecting)
    (hsel : getChunk cfg.maxChunkByteSize s.blob s.lastIndex
      s.allChunksReceived = some c) :
    (pollFire cfg s).events =
      s.events ++ [Ev.attempt s.chunkCount ((c.size : ℚ) / 1024)] := by
  simp [pollFire, hphase, hsel, sendChunk]

/-- Witness for C10: a completed 90000-byte source selects its final
90000-byte chunk; the attempt event payload is 90000/1024 kilobytes
(fractional), not 90000. -/
theorem c10_witness :
    (pollFire ⟨262144, 5⟩ stC10).events =
      stC10.events ++ [Ev.attempt stC10.chunkCount (((90000 : ℕ) : ℚ) / 1024)] :=
  c10_attempt_event_in_kilobytes ⟨262144, 5⟩ stC10 ⟨0, 90000⟩ rfl (by decide)

end UpChunk
